import Mathlib

/-!
# Verification of the CDMX metro dashboard frontend

A shallow embedding of the data-shaping logic of the repository's frontend
(`src/frontend/src`): the forecast chart-data pipeline of
`components/ForecastView.jsx`, the aggregate statistics of
`components/TimeSeriesChart.jsx`, the cascading station selector of
`components/TimeSeriesChart.jsx` (StationSelector), and the API client of
`services/api.js`.  JavaScript values flowing through the arrays are modelled
by an explicit value type with distinct `undefined` and `null`; JS numbers are
modelled by rationals (all inputs of interest are exact).
-/

/-- A JavaScript value as it appears in the data arrays handled by the
frontend: `undefined` is JS `undefined` (also the result of reading a missing
object property or an out-of-bounds index), `null` is JS `null`, `num` a
number, `str` a string. -/
inductive JSVal where
  | undefined : JSVal
  | null : JSVal
  | num : Rat → JSVal
  | str : String → JSVal
deriving DecidableEq, Repr

/-- JS truthiness of a `JSVal`: `undefined` and `null` are falsy, a number is
falsy iff it is `0`, a string is falsy iff it is empty. -/
def JSVal.truthy : JSVal → Bool
  | .undefined => false
  | .null => false
  | .num x => x != 0
  | .str s => s != ""

/-- Models the JS optional-chained index read `arr?.[i]`: the element when the
index is in bounds, `undefined` otherwise (a JS out-of-bounds read does not
fault, it yields `undefined`). -/
def jsIndex (arr : List JSVal) (i : Nat) : JSVal :=
  arr.getD i .undefined

/-- `sanitizeArray` from `ForecastView.jsx`: replaces every `null` entry by
`undefined` so the charting layer treats it as a gap.  (The source's
`Array.isArray` guard is vacuous here: the embedding types the field as a
list.) -/
def sanitizeArray (arr : List JSVal) : List JSVal :=
  arr.map fun val => if val = JSVal.null then JSVal.undefined else val

/-- The `train` sub-series of a forecast bundle. -/
structure TrainSeries where
  dates : List JSVal
  actual : List JSVal
  fitted : List JSVal
  lower : List JSVal
  upper : List JSVal
deriving DecidableEq, Repr

/-- The `test` (validation) sub-series of a forecast bundle. -/
structure TestSeries where
  dates : List JSVal
  actual : List JSVal
  predicted : List JSVal
  lower : List JSVal
  upper : List JSVal
deriving DecidableEq, Repr

/-- The `forecast` (future) sub-series of a forecast bundle. -/
structure ForecastSeries where
  dates : List JSVal
  predicted : List JSVal
  lower : List JSVal
  upper : List JSVal
deriving DecidableEq, Repr

/-- A `ForecastBundle` as held by `ForecastView`: the three optional
sub-series.  (`anomalies` and `metrics` are not consumed by the chart-data
pipeline and are omitted from this part of the embedding.) -/
structure ForecastBundle where
  train : Option TrainSeries
  test : Option TestSeries
  forecast : Option ForecastSeries
deriving DecidableEq, Repr

/-- `sanitizeForecastData` from `ForecastView.jsx`, restricted to the `train`
field: sanitize each of its five arrays. -/
def sanitizeTrain (t : TrainSeries) : TrainSeries :=
  { dates := sanitizeArray t.dates
    actual := sanitizeArray t.actual
    fitted := sanitizeArray t.fitted
    lower := sanitizeArray t.lower
    upper := sanitizeArray t.upper }

/-- `sanitizeForecastData` from `ForecastView.jsx`, restricted to the `test`
field. -/
def sanitizeTest (t : TestSeries) : TestSeries :=
  { dates := sanitizeArray t.dates
    actual := sanitizeArray t.actual
    predicted := sanitizeArray t.predicted
    lower := sanitizeArray t.lower
    upper := sanitizeArray t.upper }

/-- `sanitizeForecastData` from `ForecastView.jsx`, restricted to the
`forecast` field. -/
def sanitizeForecastSub (f : ForecastSeries) : ForecastSeries :=
  { dates := sanitizeArray f.dates
    predicted := sanitizeArray f.predicted
    lower := sanitizeArray f.lower
    upper := sanitizeArray f.upper }

/-- `sanitizeForecastData` from `ForecastView.jsx`: sanitize every array of
every present sub-series (the JS `if (result.train)` guards become the
`Option.map`s). -/
def sanitizeForecastData (data : ForecastBundle) : ForecastBundle :=
  { train := data.train.map sanitizeTrain
    test := data.test.map sanitizeTest
    forecast := data.forecast.map sanitizeForecastSub }

/-- One merged chart row (`ChartPoint`): an absent object field is `undefined`,
exactly as a missing-property read yields `undefined` in JS. -/
structure ChartPoint where
  fecha : JSVal
  actual : JSVal
  fitted : JSVal
  validation_predicted : JSVal
  predicted : JSVal
  lower : JSVal
  upper : JSVal
  type : String
deriving DecidableEq, Repr

instance : Inhabited ChartPoint :=
  ⟨⟨.undefined, .undefined, .undefined, .undefined, .undefined, .undefined, .undefined, ""⟩⟩

/-- The train block of `prepareChartData`: `train.dates.forEach((date, i) =>
...)` pushes one row per date (the source's `if (i < train.dates.length)`
check is kept, though `forEach` makes it always true); the value fields are
the optional-chained reads `train.actual?.[i]`, etc.  Rows carry no
`validation_predicted`/`predicted` key, i.e. those fields are `undefined`. -/
def trainRows (train : TrainSeries) : List ChartPoint :=
  (List.range train.dates.length).filterMap fun i =>
    if i < train.dates.length then
      some { fecha := jsIndex train.dates i
             actual := jsIndex train.actual i
             fitted := jsIndex train.fitted i
             validation_predicted := .undefined
             predicted := .undefined
             lower := jsIndex train.lower i
             upper := jsIndex train.upper i
             type := "train" }
    else none

/-- The test block of `prepareChartData`: the sub-series' `predicted` values
are stored under `validation_predicted`, and `predicted` is explicitly set to
`undefined`. -/
def testRows (test : TestSeries) : List ChartPoint :=
  (List.range test.dates.length).filterMap fun i =>
    if i < test.dates.length then
      some { fecha := jsIndex test.dates i
             actual := jsIndex test.actual i
             fitted := .undefined
             validation_predicted := jsIndex test.predicted i
             predicted := .undefined
             lower := jsIndex test.lower i
             upper := jsIndex test.upper i
             type := "test" }
    else none

/-- The forecast block of `prepareChartData`: `validation_predicted` is
explicitly `undefined`, the sub-series' `predicted` values go under
`predicted`. -/
def futureRows (forecast : ForecastSeries) : List ChartPoint :=
  (List.range forecast.dates.length).filterMap fun i =>
    if i < forecast.dates.length then
      some { fecha := jsIndex forecast.dates i
             actual := .undefined
             fitted := .undefined
             validation_predicted := .undefined
             predicted := jsIndex forecast.predicted i
             lower := jsIndex forecast.lower i
             upper := jsIndex forecast.upper i
             type := "future" }
    else none

/-- The merge phase of `prepareChartData`: push the train rows, then the test
rows, then the future rows (each block guarded by presence of the sub-series;
the JS `train && train.dates` guard reduces to presence because an array —
even an empty one — is truthy). -/
def mergeChartData (b : ForecastBundle) : List ChartPoint :=
  (match b.train with
   | some t => trainRows t
   | none => [])
  ++ (match b.test with
      | some t => testRows t
      | none => [])
  ++ (match b.forecast with
      | some f => futureRows f
      | none => [])

/-- The mode filter of `prepareChartData`: three guarded `push(...filter)`
blocks appending the train, test and future rows in that order. -/
def filterByMode (mode : String) (chartData : List ChartPoint) : List ChartPoint :=
  (if mode = "all" ∨ mode = "train" then
     chartData.filter fun d => d.type == "train"
   else [])
  ++ (if mode = "all" ∨ mode = "test" then
        chartData.filter fun d => d.type == "test"
      else [])
  ++ (if mode = "all" ∨ mode = "future" then
        chartData.filter fun d => d.type == "future"
      else [])

/-- Interpret a list of characters as a decimal natural number; `none` when
the list is empty or contains a non-digit. -/
def digitsToNat? (cs : List Char) : Option Nat :=
  if cs = [] then none
  else
    cs.foldl
      (fun acc c =>
        match acc with
        | none => none
        | some n => if c.isDigit then some (10 * n + (c.toNat - 48)) else none)
      (some 0)

/-- Split a character list on the dash character (groups between dashes). -/
def splitDash : List Char → List (List Char)
  | [] => [[]]
  | c :: rest =>
      let r := splitDash rest
      if c = '-' then [] :: r
      else
        match r with
        | [] => [[c]]
        | g :: gs => (c :: g) :: gs

/-- Modelled from the spec: the host date parse `new Date(fecha)` used by the
sort comparator (the repository does not define it), restricted to the ISO
year-month strings `"YYYY-MM"` this frontend receives.  Yields a comparable
key (months since year 0) or `none` when parsing fails (JS `Invalid Date`). -/
def parseDate : JSVal → Option Int
  | .str s =>
      match splitDash s.toList with
      | [y, m] =>
          match digitsToNat? y, digitsToNat? m with
          | some yn, some mn =>
              if 1 ≤ mn ∧ mn ≤ 12 then some ((12 * yn + (mn - 1) : Nat) : Int)
              else none
          | _, _ => none
      | _ => none
  | _ => none

/-- The sort comparator of `prepareChartData`:
`new Date(a.fecha) - new Date(b.fecha)`.  When either date fails to parse the
JS subtraction is `NaN`, which the sort treats as `0` (the comparator's
`catch` never fires: `new Date` does not throw). -/
def dateCompare (a b : ChartPoint) : Int :=
  match parseDate a.fecha, parseDate b.fecha with
  | some x, some y => x - y
  | _, _ => 0

/-- The "a before b" relation induced by the comparator: `compare(a,b) ≤ 0`. -/
def dateLe (a b : ChartPoint) : Prop :=
  dateCompare a b ≤ 0

instance : DecidableRel dateLe := fun a b =>
  decidable_of_iff (dateCompare a b ≤ 0) Iff.rfl

/-- The sort phase of `prepareChartData`: `filteredData.sort(comparator)`.
JS `Array.prototype.sort` is a stable comparator sort; for a consistent
comparator its result is the unique stable sorted permutation, which stable
insertion sort computes. -/
def sortChart (l : List ChartPoint) : List ChartPoint :=
  l.insertionSort dateLe

/-- `prepareChartData` from `ForecastView.jsx` (for a non-null bundle, with
the component's `mode` state passed explicitly): merge the three sub-series,
filter by mode, sort by date. -/
def prepareChartData (mode : String) (b : ForecastBundle) : List ChartPoint :=
  sortChart (filterByMode mode (mergeChartData b))
/-! ## Basic lemmas about the row builders -/

theorem filterMap_range_vacuous {α : Type} (n : Nat) (g : Nat → α) :
    (List.range n).filterMap (fun i => if i < n then some (g i) else none)
      = (List.range n).map g := by
  have h : ∀ l : List Nat, (∀ i ∈ l, i < n) →
      l.filterMap (fun i => if i < n then some (g i) else none) = l.map g := by
    intro l
    induction l with
    | nil => intro _; rfl
    | cons x xs ih =>
        intro hmem
        rw [List.filterMap_cons, List.map_cons, if_pos (hmem x (by simp)),
          ih (fun i hi => hmem i (by simp [hi]))]
  exact h _ (fun i hi => List.mem_range.mp hi)

/-- The train block builds exactly one row per entry of `dates`. -/
theorem trainRows_eq_map (t : TrainSeries) :
    trainRows t = (List.range t.dates.length).map (fun i =>
      { fecha := jsIndex t.dates i
        actual := jsIndex t.actual i
        fitted := jsIndex t.fitted i
        validation_predicted := .undefined
        predicted := .undefined
        lower := jsIndex t.lower i
        upper := jsIndex t.upper i
        type := "train" }) :=
  filterMap_range_vacuous _ _

/-- The test block builds exactly one row per entry of `dates`. -/
theorem testRows_eq_map (t : TestSeries) :
    testRows t = (List.range t.dates.length).map (fun i =>
      { fecha := jsIndex t.dates i
        actual := jsIndex t.actual i
        fitted := .undefined
        validation_predicted := jsIndex t.predicted i
        predicted := .undefined
        lower := jsIndex t.lower i
        upper := jsIndex t.upper i
        type := "test" }) :=
  filterMap_range_vacuous _ _

/-- The forecast block builds exactly one row per entry of `dates`. -/
theorem futureRows_eq_map (f : ForecastSeries) :
    futureRows f = (List.range f.dates.length).map (fun i =>
      { fecha := jsIndex f.dates i
        actual := .undefined
        fitted := .undefined
        validation_predicted := .undefined
        predicted := jsIndex f.predicted i
        lower := jsIndex f.lower i
        upper := jsIndex f.upper i
        type := "future" }) :=
  filterMap_range_vacuous _ _

theorem length_trainRows (t : TrainSeries) :
    (trainRows t).length = t.dates.length := by
  rw [trainRows_eq_map]; simp

theorem length_testRows (t : TestSeries) :
    (testRows t).length = t.dates.length := by
  rw [testRows_eq_map]; simp

theorem length_futureRows (f : ForecastSeries) :
    (futureRows f).length = f.dates.length := by
  rw [futureRows_eq_map]; simp

/-- Reading an index at or past the end of an array yields `undefined`. -/
theorem jsIndex_of_le {arr : List JSVal} {i : Nat} (h : arr.length ≤ i) :
    jsIndex arr i = .undefined := by
  rw [jsIndex, List.getD_eq_getElem?_getD, List.getElem?_eq_none h]
  rfl

/-- `jsIndex` never looks past `n` entries when the index is below `n`. -/
theorem jsIndex_take {arr : List JSVal} {i n : Nat} (h : i < n) :
    jsIndex (arr.take n) i = jsIndex arr i := by
  rw [jsIndex, jsIndex, List.getD_eq_getElem?_getD, List.getD_eq_getElem?_getD,
    List.getElem?_take, if_pos h]

theorem sanitizeArray_not_null (arr : List JSVal) :
    JSVal.null ∉ sanitizeArray arr := by
  intro hmem
  rcases List.mem_map.mp hmem with ⟨v, _, hv⟩
  by_cases h : v = JSVal.null
  · rw [if_pos h] at hv
    exact JSVal.noConfusion hv
  · rw [if_neg h] at hv
    exact h hv
/-! ## C1: sanitization before merge -/

/-- C1: merging a sanitized `ForecastBundle` replaces every `null` entry with
absent before zipping: for the bundle with `train.dates = [d1,d2]`,
`train.actual = [10,null]`, `train.fitted = [9,11]`, `prepareChartData`
yields exactly two `ChartPoint`s tagged `"train"`, the second having
`actual` absent (`undefined` — which is neither `null` nor the number `0`)
and `fitted = 11`; moreover `sanitizeArray` leaves no `null` in any array. -/
theorem c1_sanitize_then_merge (d1 d2 : String)
    (h : ∀ x y : Int, parseDate (.str d1) = some x → parseDate (.str d2) = some y → x ≤ y) :
    prepareChartData "all"
        (sanitizeForecastData
          { train := some { dates := [.str d1, .str d2]
                            actual := [.num 10, .null]
                            fitted := [.num 9, .num 11]
                            lower := []
                            upper := [] }
            test := none
            forecast := none })
      = [{ fecha := .str d1, actual := .num 10, fitted := .num 9
           validation_predicted := .undefined, predicted := .undefined
           lower := .undefined, upper := .undefined, type := "train" },
         { fecha := .str d2, actual := .undefined, fitted := .num 11
           validation_predicted := .undefined, predicted := .undefined
           lower := .undefined, upper := .undefined, type := "train" }]
      ∧ (JSVal.undefined ≠ JSVal.null ∧ JSVal.undefined ≠ JSVal.num 0)
      ∧ ∀ arr : List JSVal, JSVal.null ∉ sanitizeArray arr := by
  refine ⟨?_, ⟨by simp, by simp⟩, sanitizeArray_not_null⟩
  have hle : dateLe
      { fecha := .str d1, actual := .num 10, fitted := .num 9
        validation_predicted := .undefined, predicted := .undefined
        lower := .undefined, upper := .undefined, type := "train" }
      { fecha := .str d2, actual := .undefined, fitted := .num 11
        validation_predicted := .undefined, predicted := .undefined
        lower := .undefined, upper := .undefined, type := "train" } := by
    unfold dateLe dateCompare
    cases hx : parseDate (.str d1) with
    | none => simp
    | some x =>
        cases hy : parseDate (.str d2) with
        | none => simp
        | some y =>
            simp only
            have := h x y hx hy
            omega
  have hmerge : filterByMode "all"
      (mergeChartData
        (sanitizeForecastData
          { train := some { dates := [.str d1, .str d2]
                            actual := [.num 10, .null]
                            fitted := [.num 9, .num 11]
                            lower := []
                            upper := [] }
            test := none
            forecast := none }))
      = [{ fecha := .str d1, actual := .num 10, fitted := .num 9
           validation_predicted := .undefined, predicted := .undefined
           lower := .undefined, upper := .undefined, type := "train" },
         { fecha := .str d2, actual := .undefined, fitted := .num 11
           validation_predicted := .undefined, predicted := .undefined
           lower := .undefined, upper := .undefined, type := "train" }] := by
    simp [sanitizeForecastData, sanitizeTrain, sanitizeArray, mergeChartData,
      trainRows, filterByMode, jsIndex, List.range_succ]
  rw [prepareChartData, hmerge]
  simp [sortChart, hle]
/-- Witness for C1 at the concrete dates `"2021-01"`, `"2021-02"`. -/
theorem c1_witness :
    prepareChartData "all"
        (sanitizeForecastData
          { train := some { dates := [.str "2021-01", .str "2021-02"]
                            actual := [.num 10, .null]
                            fitted := [.num 9, .num 11]
                            lower := []
                            upper := [] }
            test := none
            forecast := none })
      = [{ fecha := .str "2021-01", actual := .num 10, fitted := .num 9
           validation_predicted := .undefined, predicted := .undefined
           lower := .undefined, upper := .undefined, type := "train" },
         { fecha := .str "2021-02", actual := .undefined, fitted := .num 11
           validation_predicted := .undefined, predicted := .undefined
           lower := .undefined, upper := .undefined, type := "train" }]
      ∧ (JSVal.undefined ≠ JSVal.null ∧ JSVal.undefined ≠ JSVal.num 0)
      ∧ ∀ arr : List JSVal, JSVal.null ∉ sanitizeArray arr :=
  c1_sanitize_then_merge "2021-01" "2021-02" (by
    intro x y hx hy
    rw [show parseDate (.str "2021-01") = some 24252 by decide] at hx
    rw [show parseDate (.str "2021-02") = some 24253 by decide] at hy
    injection hx with hx'
    injection hy with hy'
    omega)
/-! ## C2: validation predictions vs future predictions -/

/-- C2: every row zipped from the `test` sub-series carries `test.predicted[i]`
under `validation_predicted` with `predicted` absent; every row zipped from the
`forecast` sub-series carries `forecast.predicted[i]` under `predicted` with
`validation_predicted` absent; and when a test date and a forecast date
coincide the two values appear on two distinct rows of the merged output,
never overwriting one another. -/
theorem c2_distinct_predicted_fields :
    (∀ t : TestSeries, ∀ p ∈ testRows t,
        p.type = "test" ∧ p.predicted = .undefined ∧
        ∃ i, i < t.dates.length ∧ p.fecha = jsIndex t.dates i ∧
          p.validation_predicted = jsIndex t.predicted i)
    ∧ (∀ f : ForecastSeries, ∀ p ∈ futureRows f,
        p.type = "future" ∧ p.validation_predicted = .undefined ∧
        ∃ i, i < f.dates.length ∧ p.fecha = jsIndex f.dates i ∧
          p.predicted = jsIndex f.predicted i)
    ∧ prepareChartData "all"
        { train := none
          test := some { dates := [.str "2022-01"], actual := [.num 50]
                         predicted := [.num 100], lower := [], upper := [] }
          forecast := some { dates := [.str "2022-01"]
                             predicted := [.num 200], lower := [], upper := [] } }
      = [{ fecha := .str "2022-01", actual := .num 50, fitted := .undefined
           validation_predicted := .num 100, predicted := .undefined
           lower := .undefined, upper := .undefined, type := "test" },
         { fecha := .str "2022-01", actual := .undefined, fitted := .undefined
           validation_predicted := .undefined, predicted := .num 200
           lower := .undefined, upper := .undefined, type := "future" }] := by
  refine ⟨?_, ?_, by decide⟩
  · intro t p hp
    rw [testRows_eq_map] at hp
    rcases List.mem_map.mp hp with ⟨i, hi, rfl⟩
    exact ⟨rfl, rfl, i, List.mem_range.mp hi, rfl, rfl⟩
  · intro f p hp
    rw [futureRows_eq_map] at hp
    rcases List.mem_map.mp hp with ⟨i, hi, rfl⟩
    exact ⟨rfl, rfl, i, List.mem_range.mp hi, rfl, rfl⟩

/-- Witness for C2: the single row zipped from a concrete one-point test
series carries its `predicted` value under `validation_predicted`. -/
theorem c2_witness :
    ({ fecha := .str "2022-01", actual := .num 50, fitted := .undefined
       validation_predicted := .num 100, predicted := .undefined
       lower := .undefined, upper := .undefined, type := "test" } : ChartPoint).type = "test"
    ∧ ({ fecha := .str "2022-01", actual := .num 50, fitted := .undefined
         validation_predicted := .num 100, predicted := .undefined
         lower := .undefined, upper := .undefined, type := "test" } : ChartPoint).predicted = .undefined
    ∧ ∃ i, i < (([.str "2022-01"] : List JSVal)).length ∧
        ({ fecha := .str "2022-01", actual := .num 50, fitted := .undefined
           validation_predicted := .num 100, predicted := .undefined
           lower := .undefined, upper := .undefined, type := "test" } : ChartPoint).fecha
          = jsIndex [.str "2022-01"] i ∧
        ({ fecha := .str "2022-01", actual := .num 50, fitted := .undefined
           validation_predicted := .num 100, predicted := .undefined
           lower := .undefined, upper := .undefined, type := "test" } : ChartPoint).validation_predicted
          = jsIndex [.num 100] i :=
  c2_distinct_predicted_fields.1
    { dates := [.str "2022-01"], actual := [.num 50]
      predicted := [.num 100], lower := [], upper := [] }
    _ (by decide)
/-! ## C4: mode filter -/

/-- With mode `"all"` the filter is the concatenation of the three
type-filtered sublists. -/
theorem filterByMode_all (xs : List ChartPoint) :
    filterByMode "all" xs
      = xs.filter (fun d => d.type == "train")
          ++ xs.filter (fun d => d.type == "test")
          ++ xs.filter (fun d => d.type == "future") := by
  simp [filterByMode]

/-- With a single-type mode the filter keeps exactly the rows of that type. -/
theorem filterByMode_single (mode : String) (xs : List ChartPoint)
    (h : mode = "train" ∨ mode = "test" ∨ mode = "future") :
    filterByMode mode xs = xs.filter (fun d => d.type == mode) := by
  rcases h with rfl | rfl | rfl <;> simp [filterByMode]

/-- With mode `"all"`, every row tagged with one of the three types is kept
(the result is a permutation of the input). -/
theorem filterByMode_all_perm (xs : List ChartPoint)
    (h : ∀ p ∈ xs, p.type = "train" ∨ p.type = "test" ∨ p.type = "future") :
    (filterByMode "all" xs).Perm xs := by
  induction xs with
  | nil => simp [filterByMode]
  | cons x xs ih =>
      have hx := h x (by simp)
      have ih' := ih fun p hp => h p (by simp [hp])
      rw [filterByMode_all] at ih' ⊢
      rcases hx with hx | hx | hx
      · rw [List.filter_cons_of_pos (by simp [hx]),
          List.filter_cons_of_neg (by simp [hx]),
          List.filter_cons_of_neg (by simp [hx]), List.cons_append, List.cons_append]
        exact ih'.cons x
      · rw [List.filter_cons_of_neg (by simp [hx]),
          List.filter_cons_of_pos (by simp [hx]),
          List.filter_cons_of_neg (by simp [hx])]
        have heq : xs.filter (fun d => d.type == "train")
            ++ (x :: xs.filter (fun d => d.type == "test"))
            ++ xs.filter (fun d => d.type == "future")
            = xs.filter (fun d => d.type == "train")
              ++ x :: (xs.filter (fun d => d.type == "test")
                ++ xs.filter (fun d => d.type == "future")) := by
          simp
        rw [heq]
        exact List.perm_middle.trans (by rw [← List.append_assoc]; exact ih'.cons x)
      · rw [List.filter_cons_of_neg (by simp [hx]),
          List.filter_cons_of_neg (by simp [hx]),
          List.filter_cons_of_pos (by simp [hx])]
        exact List.perm_middle.trans (ih'.cons x)

/-- C4: filtering happens after the merge and before the sort; mode `"all"`
keeps every tagged row; any single-type mode keeps exactly the rows of that
type; and the `"train"` filter is idempotent. -/
theorem c4_mode_filter :
    (∀ mode : String, ∀ b : ForecastBundle,
        prepareChartData mode b = sortChart (filterByMode mode (mergeChartData b)))
    ∧ (∀ xs : List ChartPoint,
        (∀ p ∈ xs, p.type = "train" ∨ p.type = "test" ∨ p.type = "future") →
        (filterByMode "all" xs).Perm xs)
    ∧ (∀ mode : String, ∀ xs : List ChartPoint,
        mode = "train" ∨ mode = "test" ∨ mode = "future" →
        filterByMode mode xs = xs.filter (fun d => d.type == mode))
    ∧ (∀ xs : List ChartPoint,
        filterByMode "train" (filterByMode "train" xs) = filterByMode "train" xs) := by
  refine ⟨fun _ _ => rfl, filterByMode_all_perm, filterByMode_single, ?_⟩
  intro xs
  rw [filterByMode_single _ _ (Or.inl rfl), filterByMode_single _ _ (Or.inl rfl),
    List.filter_filter]
  simp

/-- Witness for C4: the permutation and single-mode conjuncts at a concrete
two-row list. -/
theorem c4_witness :
    (filterByMode "all"
        [{ fecha := .str "2022-01", actual := .num 50, fitted := .undefined
           validation_predicted := .num 100, predicted := .undefined
           lower := .undefined, upper := .undefined, type := "test" },
         { fecha := .str "2022-02", actual := .undefined, fitted := .undefined
           validation_predicted := .undefined, predicted := .num 200
           lower := .undefined, upper := .undefined, type := "future" }]).Perm
      [{ fecha := .str "2022-01", actual := .num 50, fitted := .undefined
         validation_predicted := .num 100, predicted := .undefined
         lower := .undefined, upper := .undefined, type := "test" },
       { fecha := .str "2022-02", actual := .undefined, fitted := .undefined
         validation_predicted := .undefined, predicted := .num 200
         lower := .undefined, upper := .undefined, type := "future" }] :=
  c4_mode_filter.2.1 _ (by decide)
/-! ## C5: behaviour of the zip on length-mismatched sub-series -/

/-- C5 as stated is false: the merge does not stop at the shorter bound — it
iterates over all of `dates`, so a `train` sub-series with two dates but a
single `actual` entry still produces two rows, not `min` of the lengths. -/
theorem c5_counterexample :
    ¬ ∀ t : TrainSeries, (trainRows t).length
        = min t.dates.length (min t.actual.length (min t.fitted.length
            (min t.lower.length t.upper.length))) := fun h =>
  absurd
    (h { dates := [.str "2021-01", .str "2021-02"], actual := [.num 10]
         fitted := [.num 9, .num 11], lower := [.num 1, .num 2]
         upper := [.num 20, .num 21] })
    (by decide)

/-- C5 amended: the merge produces exactly `dates.length` rows per sub-series;
every field access is the bounds-safe `jsIndex` (an index at or past the end
of a value array yields absent rather than faulting), and entries of value
arrays beyond `dates.length` are ignored. -/
theorem c5_zip_bounds :
    (∀ t : TrainSeries, (trainRows t).length = t.dates.length)
    ∧ (∀ t : TestSeries, (testRows t).length = t.dates.length)
    ∧ (∀ f : ForecastSeries, (futureRows f).length = f.dates.length)
    ∧ (∀ arr : List JSVal, ∀ i, arr.length ≤ i → jsIndex arr i = .undefined)
    ∧ (∀ t : TrainSeries, ∀ p ∈ trainRows t, ∃ i, i < t.dates.length ∧
        p = { fecha := jsIndex t.dates i, actual := jsIndex t.actual i
              fitted := jsIndex t.fitted i, validation_predicted := .undefined
              predicted := .undefined, lower := jsIndex t.lower i
              upper := jsIndex t.upper i, type := "train" })
    ∧ (∀ t : TrainSeries,
        trainRows { t with actual := t.actual.take t.dates.length
                           fitted := t.fitted.take t.dates.length
                           lower := t.lower.take t.dates.length
                           upper := t.upper.take t.dates.length } = trainRows t)
    ∧ (∀ t : TestSeries,
        testRows { t with actual := t.actual.take t.dates.length
                          predicted := t.predicted.take t.dates.length
                          lower := t.lower.take t.dates.length
                          upper := t.upper.take t.dates.length } = testRows t)
    ∧ (∀ f : ForecastSeries,
        futureRows { f with predicted := f.predicted.take f.dates.length
                            lower := f.lower.take f.dates.length
                            upper := f.upper.take f.dates.length } = futureRows f) := by
  refine ⟨length_trainRows, length_testRows, length_futureRows,
    fun arr i h => jsIndex_of_le h, ?_, ?_, ?_, ?_⟩
  · intro t p hp
    rw [trainRows_eq_map] at hp
    rcases List.mem_map.mp hp with ⟨i, hi, rfl⟩
    exact ⟨i, List.mem_range.mp hi, rfl⟩
  · intro t
    rw [trainRows_eq_map, trainRows_eq_map]
    refine List.map_congr_left fun i hi => ?_
    have h := List.mem_range.mp hi
    simp only [jsIndex_take h]
  · intro t
    rw [testRows_eq_map, testRows_eq_map]
    refine List.map_congr_left fun i hi => ?_
    have h := List.mem_range.mp hi
    simp only [jsIndex_take h]
  · intro f
    rw [futureRows_eq_map, futureRows_eq_map]
    refine List.map_congr_left fun i hi => ?_
    have h := List.mem_range.mp hi
    simp only [jsIndex_take h]

/-- Witness for C5 at the concrete mismatched series: two dates and a single
`actual` entry give two rows, the second with `actual` absent. -/
theorem c5_witness :
    jsIndex [JSVal.num 10] 1 = .undefined
    ∧ (∃ i, i < (([.str "2021-01", .str "2021-02"] : List JSVal)).length ∧
        ({ fecha := .str "2021-02", actual := .undefined, fitted := .num 11
           validation_predicted := .undefined, predicted := .undefined
           lower := .num 2, upper := .num 21, type := "train" } : ChartPoint)
          = { fecha := jsIndex [.str "2021-01", .str "2021-02"] i
              actual := jsIndex [.num 10] i
              fitted := jsIndex [.num 9, .num 11] i
              validation_predicted := .undefined, predicted := .undefined
              lower := jsIndex [.num 1, .num 2] i
              upper := jsIndex [.num 20, .num 21] i, type := "train" }) :=
  ⟨c5_zip_bounds.2.2.2.1 [JSVal.num 10] 1 (by decide),
   c5_zip_bounds.2.2.2.2.1
     { dates := [.str "2021-01", .str "2021-02"], actual := [.num 10]
       fitted := [.num 9, .num 11], lower := [.num 1, .num 2]
       upper := [.num 20, .num 21] }
     _ (by decide)⟩
/-! ## C3: date sort -/

/-- The comparator on two rows whose dates parse is the difference of the
parsed values. -/
theorem dateCompare_some_some {a b : ChartPoint} {x y : Int}
    (hx : parseDate a.fecha = some x) (hy : parseDate b.fecha = some y) :
    dateCompare a b = x - y := by
  unfold dateCompare
  rw [hx, hy]

/-- A row whose date fails to parse compares equal (on the left). -/
theorem dateCompare_none_left {a b : ChartPoint} (h : parseDate a.fecha = none) :
    dateCompare a b = 0 := by
  unfold dateCompare
  rw [h]

/-- A row whose date fails to parse compares equal (on the right). -/
theorem dateCompare_none_right {a b : ChartPoint} (h : parseDate b.fecha = none) :
    dateCompare a b = 0 := by
  unfold dateCompare
  rw [h]
  cases parseDate a.fecha <;> rfl

/-- The comparator order is total. -/
theorem dateLe_total (a b : ChartPoint) : dateLe a b ∨ dateLe b a := by
  rcases hx : parseDate a.fecha with _ | x
  · exact Or.inl (by unfold dateLe; rw [dateCompare_none_left hx])
  · rcases hy : parseDate b.fecha with _ | y
    · exact Or.inl (by unfold dateLe; rw [dateCompare_none_right hy])
    · unfold dateLe
      rw [dateCompare_some_some hx hy, dateCompare_some_some hy hx]
      omega

/-- The comparator order is transitive through any row whose date parses. -/
theorem dateLe_trans_mid {a b c : ChartPoint} {y : Int}
    (hb : parseDate b.fecha = some y) :
    dateLe a b → dateLe b c → dateLe a c := by
  intro h1 h2
  rcases hx : parseDate a.fecha with _ | x
  · unfold dateLe
    rw [dateCompare_none_left hx]
  · rcases hz : parseDate c.fecha with _ | z
    · unfold dateLe
      rw [dateCompare_none_right hz]
    · unfold dateLe at h1 h2 ⊢
      rw [dateCompare_some_some hx hb] at h1
      rw [dateCompare_some_some hb hz] at h2
      rw [dateCompare_some_some hx hz]
      omega

/-- `orderedInsert` preserves sortedness when every involved row's date
parses. -/
theorem sorted_orderedInsert_parse {a : ChartPoint} {l : List ChartPoint}
    (hl : ∀ p ∈ l, (parseDate p.fecha).isSome)
    (hs : l.Sorted dateLe) : (l.orderedInsert dateLe a).Sorted dateLe := by
  induction l with
  | nil => simp
  | cons b t ih =>
      have hsb := List.sorted_cons.mp hs
      rw [List.orderedInsert]
      by_cases hab : dateLe a b
      · rw [if_pos hab, List.sorted_cons]
        refine ⟨?_, hs⟩
        intro c hc
        rcases List.mem_cons.mp hc with rfl | hct
        · exact hab
        · rcases Option.isSome_iff_exists.mp (hl b (by simp)) with ⟨y, hy⟩
          exact dateLe_trans_mid hy hab (hsb.1 c hct)
      · rw [if_neg hab, List.sorted_cons]
        refine ⟨?_, ih (fun p hp => hl p (by simp [hp])) hsb.2⟩
        intro c hc
        rcases (List.mem_orderedInsert dateLe).mp hc with hca | hct
        · rw [hca]
          exact (dateLe_total a b).resolve_left hab
        · exact hsb.1 c hct

/-- The sort phase produces a list sorted by the comparator whenever every
row's date parses. -/
theorem sorted_sortChart_of_parse {l : List ChartPoint}
    (hl : ∀ p ∈ l, (parseDate p.fecha).isSome) :
    (sortChart l).Sorted dateLe := by
  unfold sortChart
  induction l with
  | nil => simp
  | cons a t ih =>
      rw [List.insertionSort]
      exact sorted_orderedInsert_parse
        (fun p hp => hl p
          (List.mem_cons_of_mem _ ((List.perm_insertionSort dateLe t).mem_iff.mp hp)))
        (ih fun p hp => hl p (by simp [hp]))

/-- When no row's date parses, every comparison is `0` and the sort returns
the list unchanged. -/
theorem sortChart_of_none {l : List ChartPoint}
    (hl : ∀ p ∈ l, parseDate p.fecha = none) : sortChart l = l := by
  unfold sortChart
  induction l with
  | nil => rfl
  | cons a t ih =>
      rw [List.insertionSort, ih (fun p hp => hl p (by simp [hp]))]
      cases t with
      | nil => rfl
      | cons b t' =>
          have h0 : dateLe a b := by
            unfold dateLe
            rw [dateCompare_none_left (hl a (by simp))]
          rw [List.orderedInsert, if_pos h0]

/-- C3: the merged-and-filtered sequence is sorted ascending by parsed date
(the concrete single-sub-series example comes out in calendar order, and in
general the sort output is ordered by the comparator whenever all dates
parse, with `dateLe` meaning the parsed values are in ascending order); a
row whose `fecha` fails to parse compares equal to every row, in both
directions, and a sequence of such rows is returned unchanged rather than
raising. -/
theorem c3_sort_by_parsed_date :
    ((prepareChartData "all"
        { train := some { dates := [.str "2021-03", .str "2021-01", .str "2021-02"]
                          actual := [.num 1, .num 2, .num 3]
                          fitted := [], lower := [], upper := [] }
          test := none, forecast := none }).map (fun p => p.fecha))
      = [.str "2021-01", .str "2021-02", .str "2021-03"]
    ∧ (∀ l : List ChartPoint, (∀ p ∈ l, (parseDate p.fecha).isSome) →
        (sortChart l).Sorted dateLe)
    ∧ (∀ a b : ChartPoint, dateLe a b → ∀ x y : Int, parseDate a.fecha = some x →
        parseDate b.fecha = some y → x ≤ y)
    ∧ (∀ a b : ChartPoint, parseDate a.fecha = none →
        dateCompare a b = 0 ∧ dateCompare b a = 0)
    ∧ (∀ l : List ChartPoint, (∀ p ∈ l, parseDate p.fecha = none) →
        sortChart l = l) := by
  refine ⟨by decide, fun l hl => sorted_sortChart_of_parse hl, ?_, ?_,
    fun l hl => sortChart_of_none hl⟩
  · intro a b hab x y hx hy
    unfold dateLe at hab
    rw [dateCompare_some_some hx hy] at hab
    omega
  · exact fun a b h => ⟨dateCompare_none_left h, dateCompare_none_right h⟩

/-- Witness for C3: the sorted-output conjunct at a concrete two-row list with
parseable dates, and the equal-comparison conjunct at a row with an
unparseable date. -/
theorem c3_witness :
    (sortChart
        [{ fecha := .str "2021-05", actual := .num 1, fitted := .undefined
           validation_predicted := .undefined, predicted := .undefined
           lower := .undefined, upper := .undefined, type := "train" },
         { fecha := .str "2021-04", actual := .num 2, fitted := .undefined
           validation_predicted := .undefined, predicted := .undefined
           lower := .undefined, upper := .undefined, type := "train" }]).Sorted dateLe
    ∧ dateCompare
        { fecha := .str "not-a-date", actual := .undefined, fitted := .undefined
          validation_predicted := .undefined, predicted := .undefined
          lower := .undefined, upper := .undefined, type := "train" }
        { fecha := .str "2021-04", actual := .num 2, fitted := .undefined
          validation_predicted := .undefined, predicted := .undefined
          lower := .undefined, upper := .undefined, type := "train" } = 0
      ∧ dateCompare
          { fecha := .str "2021-04", actual := .num 2, fitted := .undefined
            validation_predicted := .undefined, predicted := .undefined
            lower := .undefined, upper := .undefined, type := "train" }
          { fecha := .str "not-a-date", actual := .undefined, fitted := .undefined
            validation_predicted := .undefined, predicted := .undefined
            lower := .undefined, upper := .undefined, type := "train" } = 0 :=
  ⟨c3_sort_by_parsed_date.2.1 _ (by decide),
   c3_sort_by_parsed_date.2.2.2.1 _ _ (by decide)⟩
/-! ## C10: hiding the forecast -/

/-- The `useState` component state of `ForecastView`. -/
structure ForecastViewState where
  forecastData : Option ForecastBundle
  loading : Bool
  error : Option String
  mode : String
deriving DecidableEq, Repr

/-- `handleForecastClick` from `ForecastView.jsx`, with the outcome of the
`getForecast` call passed explicitly, returning the number of fetches issued
together with the new state.  When a bundle is loaded the handler only clears
`forecastData` and returns; otherwise it fetches once, stores the sanitized
bundle on success or the `"Error: "`-prefixed message on failure, and ends
with `loading := false`. -/
def handleForecastClick (fetchResult : Except String ForecastBundle)
    (s : ForecastViewState) : Nat × ForecastViewState :=
  match s.forecastData with
  | some _ => (0, { s with forecastData := none })
  | none =>
      match fetchResult with
      | .ok data =>
          (1, { s with
                loading := false
                error := none
                forecastData := some (sanitizeForecastData data) })
      | .error e =>
          (1, { s with loading := false, error := some ("Error: " ++ e) })

/-- C10: clicking the forecast button while a bundle is loaded sets only
`forecastData` to null — mode, error and loading are unchanged and no fetch
is issued — and after hiding and re-generating (a second click, whatever its
fetch outcome) the previously selected mode still applies. -/
theorem c10_hide_forecast_frame (s : ForecastViewState) (b : ForecastBundle)
    (fetchResult fetchResult2 : Except String ForecastBundle)
    (hs : s.forecastData = some b) :
    handleForecastClick fetchResult s = (0, { s with forecastData := none })
    ∧ (handleForecastClick fetchResult s).2.mode = s.mode
    ∧ (handleForecastClick fetchResult s).2.error = s.error
    ∧ (handleForecastClick fetchResult s).2.loading = s.loading
    ∧ (handleForecastClick fetchResult2
        (handleForecastClick fetchResult s).2).2.mode = s.mode := by
  have h1 : handleForecastClick fetchResult s = (0, { s with forecastData := none }) := by
    unfold handleForecastClick
    rw [hs]
  refine ⟨h1, by rw [h1], by rw [h1], by rw [h1], ?_⟩
  rw [h1]
  cases fetchResult2 with
  | ok d => rfl
  | error e => rfl

/-- Witness for C10 at a concrete loaded state with mode `"future"`. -/
theorem c10_witness :
    handleForecastClick (Except.error "net")
        { forecastData := some { train := none, test := none, forecast := none }
          loading := false, error := none, mode := "future" }
      = (0, { forecastData := none, loading := false, error := none, mode := "future" })
    ∧ (handleForecastClick (Except.error "net")
        { forecastData := some { train := none, test := none, forecast := none }
          loading := false, error := none, mode := "future" }).2.mode = "future"
    ∧ (handleForecastClick (Except.error "net")
        { forecastData := some { train := none, test := none, forecast := none }
          loading := false, error := none, mode := "future" }).2.error = none
    ∧ (handleForecastClick (Except.error "net")
        { forecastData := some { train := none, test := none, forecast := none }
          loading := false, error := none, mode := "future" }).2.loading = false
    ∧ (handleForecastClick
        (Except.ok { train := none, test := none, forecast := none })
        (handleForecastClick (Except.error "net")
          { forecastData := some { train := none, test := none, forecast := none }
            loading := false, error := none, mode := "future" }).2).2.mode = "future" :=
  c10_hide_forecast_frame _ { train := none, test := none, forecast := none } _ _ rfl
/-! ## API client (`services/api.js`) -/

/-- A JSON value as parsed from a response body. -/
inductive Json where
  | null : Json
  | bool : Bool → Json
  | num : Rat → Json
  | str : String → Json
  | arr : List Json → Json
  | obj : List (String × Json) → Json

/-- Property read `j.key` on a parsed body: the field value when `j` is an
object containing the key, otherwise `none` (JS `undefined`; the client only
reads `detail`, `data` and `forecast` off parsed bodies). -/
def jsonGet (j : Json) (key : String) : Option Json :=
  match j with
  | .obj fields => fields.lookup key
  | _ => none

/-- JS truthiness of a parsed JSON value. -/
def Json.truthy : Json → Bool
  | .null => false
  | .bool b => b
  | .num x => x != 0
  | .str s => s != ""
  | .arr _ => true
  | .obj _ => true

/-- `Array.isArray` on a parsed JSON value. -/
def Json.isArr : Json → Bool
  | .arr _ => true
  | _ => false

/-- An HTTP response as consumed by `handleResponse`: the success flag,
status code and text, and the body as parsed JSON (`none` when the body is
not parseable as JSON). -/
structure HttpResponse where
  ok : Bool
  status : Nat
  statusText : String
  body : Option Json

/-- `handleResponse` from `api.js`: on a non-success status, throw the body's
`detail` text when present and truthy (only string `detail` values, the shape
the backend sends, are modelled) and otherwise the synthesized
`"Error <status>: <statusText>"` message; on success, return the parsed body
or throw when it is not parseable. -/
def handleResponse (response : HttpResponse) : Except String Json :=
  if !response.ok then
    .error
      (match response.body with
       | some errorData =>
           match jsonGet errorData "detail" with
           | some (.str s) =>
               if s != "" then s
               else "Error " ++ toString response.status ++ ": " ++ response.statusText
           | _ => "Error " ++ toString response.status ++ ": " ++ response.statusText
       | none => "Error " ++ toString response.status ++ ": " ++ response.statusText)
  else
    match response.body with
    | some data => .ok data
    | none => .error "La respuesta del servidor tiene un formato inválido"

/-- `API_BASE_URL` from `api.js`. -/
def API_BASE_URL : String := "http://localhost:8000/api"

/-- `getStations` from `api.js`: one fetch of `/stations`; errors from
`handleResponse` and the non-array defensive check are re-thrown with the
call-specific prefix; an array body — empty or not, whatever its elements —
is returned as-is.  The first component is the list of URLs fetched. -/
def getStations (server : String → HttpResponse) :
    List String × Except String Json :=
  let url := API_BASE_URL ++ "/stations"
  let result :=
    match handleResponse (server url) with
    | .error e => Except.error ("No se pudieron obtener las estaciones: " ++ e)
    | .ok data =>
        match data with
        | .arr items => Except.ok (Json.arr items)
        | _ =>
            Except.error
              ("No se pudieron obtener las estaciones: "
                ++ "El servidor devolvió un formato de datos inesperado")
  ([url], result)

/-- JS falsiness of an optional string argument: missing (`undefined`) or the
empty string. -/
def strFalsy : Option String → Bool
  | none => true
  | some s => s == ""

/-- Uppercase hex digit of a value below 16. -/
def hexDigit (n : Nat) : Char :=
  if n < 10 then Char.ofNat (48 + n) else Char.ofNat (55 + n)

/-- Percent-encoding of one byte. -/
def percentEncodeByte (b : Nat) : String :=
  String.singleton '%' ++ String.singleton (hexDigit (b / 16 % 16))
    ++ String.singleton (hexDigit (b % 16))

/-- UTF-8 bytes of a unicode code point. -/
def utf8Bytes (n : Nat) : List Nat :=
  if n < 128 then [n]
  else if n < 2048 then [192 + n / 64, 128 + n % 64]
  else if n < 65536 then [224 + n / 4096, 128 + n / 64 % 64, 128 + n % 64]
  else [240 + n / 262144, 128 + n / 4096 % 64, 128 + n / 64 % 64, 128 + n % 64]

/-- The characters `encodeURIComponent` leaves unescaped (the apostrophe,
also unescaped by the host, does not occur in this data and is omitted). -/
def isUnreservedChar (c : Char) : Bool :=
  c.isAlphanum || c = '-' || c = '_' || c = '.' || c = '!' || c = '~'
    || c = '*' || c = '(' || c = ')'

/-- Modelled from the spec: the host `encodeURIComponent` (the repository
does not define it) — every character outside the unreserved set is replaced
by the percent-encoding of its UTF-8 bytes. -/
def encodeURIComponent (s : String) : String :=
  s.toList.foldl
    (fun acc c =>
      if isUnreservedChar c then acc.push c
      else acc ++ String.join ((utf8Bytes c.toNat).map percentEncodeByte))
    ""

/-- `getTimeSeries` from `api.js`: validation of both arguments before any
fetch, then one fetch of the percent-encoded path; the response must carry a
`data` field that is (truthy and) an array. -/
def getTimeSeries (server : String → HttpResponse)
    (linea estacion : Option String) : List String × Except String Json :=
  if strFalsy linea || strFalsy estacion then
    ([], .error "Se requiere especificar línea y estación")
  else
    let url := API_BASE_URL ++ "/timeseries/" ++ encodeURIComponent (linea.getD "")
      ++ "/" ++ encodeURIComponent (estacion.getD "")
    let result :=
      match handleResponse (server url) with
      | .error e => Except.error ("No se pudo obtener la serie temporal: " ++ e)
      | .ok data =>
          match jsonGet data "data" with
          | some (.arr _) => Except.ok data
          | _ =>
              Except.error
                ("No se pudo obtener la serie temporal: "
                  ++ "El formato de los datos recibidos es inválido")
    ([url], result)

/-- `getForecast` from `api.js`: same validation and encoding; the response
must carry a truthy `forecast` field, which is returned unwrapped. -/
def getForecast (server : String → HttpResponse)
    (linea estacion : Option String) : List String × Except String Json :=
  if strFalsy linea || strFalsy estacion then
    ([], .error "Se requiere especificar línea y estación")
  else
    let url := API_BASE_URL ++ "/forecast/" ++ encodeURIComponent (linea.getD "")
      ++ "/" ++ encodeURIComponent (estacion.getD "")
    let result :=
      match handleResponse (server url) with
      | .error e => Except.error ("No se pudo obtener el pronóstico: " ++ e)
      | .ok data =>
          match jsonGet data "forecast" with
          | some f =>
              if f.truthy then Except.ok f
              else
                Except.error
                  ("No se pudo obtener el pronóstico: "
                    ++ "El formato del pronóstico recibido es inválido")
          | none =>
              Except.error
                ("No se pudo obtener el pronóstico: "
                  ++ "El formato del pronóstico recibido es inválido")
    ([url], result)
/-! ## C6: argument validation and single fetch -/

/-- C6: with either argument missing or empty, `getTimeSeries` and
`getForecast` throw the validation error with an empty fetch trace (no
network call); with both non-empty, each issues exactly one fetch of the
path built from the two percent-encoded values. -/
theorem c6_validate_then_fetch_once :
    (∀ server : String → HttpResponse, ∀ linea estacion : Option String,
        (strFalsy linea || strFalsy estacion) = true →
        getTimeSeries server linea estacion
            = ([], .error "Se requiere especificar línea y estación")
          ∧ getForecast server linea estacion
            = ([], .error "Se requiere especificar línea y estación"))
    ∧ (∀ server : String → HttpResponse, ∀ linea estacion : Option String,
        strFalsy linea = false → strFalsy estacion = false →
        (getTimeSeries server linea estacion).1
            = [API_BASE_URL ++ "/timeseries/" ++ encodeURIComponent (linea.getD "")
                ++ "/" ++ encodeURIComponent (estacion.getD "")]
          ∧ (getForecast server linea estacion).1
            = [API_BASE_URL ++ "/forecast/" ++ encodeURIComponent (linea.getD "")
                ++ "/" ++ encodeURIComponent (estacion.getD "")]) := by
  constructor
  · intro server linea estacion h
    rw [getTimeSeries, getForecast, if_pos h, if_pos h]
    exact ⟨rfl, rfl⟩
  · intro server linea estacion h1 h2
    rw [getTimeSeries, getForecast, if_neg (by simp [h1, h2]), if_neg (by simp [h1, h2])]
    exact ⟨rfl, rfl⟩

/-- Witness for C6: the missing-argument case at concrete arguments, and the
single percent-encoded fetch at a concrete accented station name. -/
theorem c6_witness :
    (getTimeSeries (fun _ => { ok := true, status := 200, statusText := "OK", body := none })
        (some "1") none
        = ([], .error "Se requiere especificar línea y estación")
      ∧ getForecast (fun _ => { ok := true, status := 200, statusText := "OK", body := none })
        (some "1") none
        = ([], .error "Se requiere especificar línea y estación"))
    ∧ ((getTimeSeries (fun _ => { ok := true, status := 200, statusText := "OK", body := none })
        (some "1") (some "Pantitlán")).1
        = [API_BASE_URL ++ "/timeseries/" ++ encodeURIComponent "1"
            ++ "/" ++ encodeURIComponent "Pantitlán"]
      ∧ (getForecast (fun _ => { ok := true, status := 200, statusText := "OK", body := none })
        (some "1") (some "Pantitlán")).1
        = [API_BASE_URL ++ "/forecast/" ++ encodeURIComponent "1"
            ++ "/" ++ encodeURIComponent "Pantitlán"])
    ∧ encodeURIComponent "Pantitlán" = "Pantitl%C3%A1n" :=
  ⟨c6_validate_then_fetch_once.1 _ (some "1") none (by decide),
   c6_validate_then_fetch_once.2 _ (some "1") (some "Pantitlán") (by decide) (by decide),
   by decide⟩
/-! ## C7: `getStations` error behaviour -/

/-- Modelled from the spec: the `Station` shape — an object carrying string
fields `linea` and `estacion` — used to express what "a sequence of Station"
would mean; the code never performs this per-element check. -/
def isStationJson (j : Json) : Bool :=
  match jsonGet j "linea", jsonGet j "estacion" with
  | some (.str _), some (.str _) => true
  | _, _ => false

/-- C7 as stated is false: a successful response whose parsed body is an
array of non-`Station` values (here `[1]`) is returned as-is, without any
error, because the code's defensive check is only `Array.isArray`. -/
theorem c7_counterexample :
    (getStations (fun _ =>
        { ok := true, status := 200, statusText := "OK"
          body := some (.arr [.num 1]) })).2 = Except.ok (Json.arr [Json.num 1])
      ∧ isStationJson (Json.num 1) = false :=
  ⟨rfl, rfl⟩

/-- C7 amended: `getStations` fails when the HTTP status is not successful,
when the body is not parseable as JSON, or when the parsed body is not an
array (element shapes are not checked); any array body — in particular the
empty array — is a valid, non-error result returned as-is. -/
theorem c7_getstations_errors :
    (∀ server : String → HttpResponse,
        (server (API_BASE_URL ++ "/stations")).ok = false →
        ∃ msg, (getStations server).2 = Except.error msg)
    ∧ (∀ server : String → HttpResponse,
        (server (API_BASE_URL ++ "/stations")).ok = true →
        (server (API_BASE_URL ++ "/stations")).body = none →
        (getStations server).2
          = Except.error ("No se pudieron obtener las estaciones: "
              ++ "La respuesta del servidor tiene un formato inválido"))
    ∧ (∀ server : String → HttpResponse, ∀ j : Json,
        (server (API_BASE_URL ++ "/stations")).ok = true →
        (server (API_BASE_URL ++ "/stations")).body = some j →
        j.isArr = false →
        (getStations server).2
          = Except.error ("No se pudieron obtener las estaciones: "
              ++ "El servidor devolvió un formato de datos inesperado"))
    ∧ (∀ server : String → HttpResponse, ∀ items : List Json,
        (server (API_BASE_URL ++ "/stations")).ok = true →
        (server (API_BASE_URL ++ "/stations")).body = some (.arr items) →
        (getStations server).2 = Except.ok (Json.arr items)) := by
  refine ⟨?_, ?_, ?_, ?_⟩
  · intro server h
    rw [getStations]
    simp only [handleResponse, h]
    exact ⟨_, rfl⟩
  · intro server hok hbody
    rw [getStations]
    simp only [handleResponse, hok, hbody]
    rfl
  · intro server j hok hbody harr
    rw [getStations]
    simp only [handleResponse, hok, hbody]
    cases j with
    | arr items => exact absurd harr (by simp [Json.isArr])
    | null => rfl
    | bool b => rfl
    | num x => rfl
    | str s => rfl
    | obj fields => rfl
  · intro server items hok hbody
    rw [getStations]
    simp only [handleResponse, hok, hbody]
    rfl

/-- Witness for C7: a successful empty-array response yields `ok []` (no
error), and an unparseable body yields the wrapped parse error. -/
theorem c7_witness :
    (getStations (fun _ =>
        { ok := true, status := 200, statusText := "OK"
          body := some (.arr []) })).2 = Except.ok (Json.arr [])
    ∧ (getStations (fun _ =>
        { ok := true, status := 200, statusText := "OK", body := none })).2
        = Except.error ("No se pudieron obtener las estaciones: "
            ++ "La respuesta del servidor tiene un formato inválido") :=
  ⟨c7_getstations_errors.2.2.2 _ [] rfl rfl,
   c7_getstations_errors.2.1 _ rfl rfl⟩
/-! ## StationSelector (`TimeSeriesChart.jsx`) -/

/-- A `Station` as returned by the backend station list. -/
structure Station where
  linea : String
  estacion : String
deriving DecidableEq, Repr

/-- First-occurrence deduplication — the iteration order of the JS
`new Set(...)` spread. -/
def uniqueInOrder : List String → List String
  | [] => []
  | x :: xs => x :: uniqueInOrder (xs.filter (fun y => y != x))
termination_by l => l.length
decreasing_by
  exact Nat.lt_succ_of_le (List.length_filter_le _ _)

/-- The `lines` memo of `StationSelector`:
`[...new Set(stations.map(s => s.linea))].sort()` behind an early return for
the empty list; the JS default sort on strings is ascending lexicographic,
modelled by a stable sort on `≤`. -/
def lines (stations : List Station) : List String :=
  if stations.length = 0 then []
  else (uniqueInOrder (stations.map (fun s => s.linea))).insertionSort (· ≤ ·)

/-- Modelled from the spec: the host `localeCompare` comparison used to sort
stations, taken as ascending lexicographic comparison on `estacion` per the
spec. -/
def estacionLe (a b : Station) : Prop :=
  a.estacion ≤ b.estacion

instance : DecidableRel estacionLe := fun a b =>
  inferInstanceAs (Decidable (a.estacion ≤ b.estacion))

instance : IsTotal Station estacionLe :=
  ⟨fun a b => le_total a.estacion b.estacion⟩

instance : IsTrans Station estacionLe :=
  ⟨fun _ _ _ h1 h2 => le_trans h1 h2⟩

/-- The `stationsForLine` memo of `StationSelector`: empty when no line is
chosen, else the stations whose `linea` matches exactly, sorted ascending by
`estacion`. -/
def stationsForLine (stations : List Station) (selectedLine : String) :
    List Station :=
  if selectedLine = "" then []
  else (stations.filter (fun s => s.linea == selectedLine)).insertionSort estacionLe

/-- Everything `uniqueInOrder` returns comes from the input. -/
theorem uniqueInOrder_subset {l : List String} {x : String}
    (h : x ∈ uniqueInOrder l) : x ∈ l := by
  induction l using uniqueInOrder.induct with
  | case1 => simp [uniqueInOrder] at h
  | case2 a xs ih =>
      rw [uniqueInOrder] at h
      rcases List.mem_cons.mp h with rfl | h'
      · simp
      · exact List.mem_cons_of_mem _ (List.mem_of_mem_filter (ih h'))
/-- Deduplication preserves membership. -/
theorem mem_uniqueInOrder {l : List String} {x : String} :
    x ∈ uniqueInOrder l ↔ x ∈ l := by
  constructor
  · exact uniqueInOrder_subset
  · intro h
    induction l using uniqueInOrder.induct with
    | case1 => simp at h
    | case2 a xs ih =>
        rw [uniqueInOrder]
        rcases List.mem_cons.mp h with rfl | h'
        · simp
        · by_cases hxa : x = a
          · simp [hxa]
          · exact List.mem_cons_of_mem _
              (ih (List.mem_filter.mpr ⟨h', by simp [hxa]⟩))

/-- Deduplication yields a list without duplicates. -/
theorem uniqueInOrder_nodup (l : List String) : (uniqueInOrder l).Nodup := by
  induction l using uniqueInOrder.induct with
  | case1 => simp [uniqueInOrder]
  | case2 a xs ih =>
      rw [uniqueInOrder, List.nodup_cons]
      refine ⟨fun hmem => ?_, ih⟩
      have := List.mem_filter.mp (uniqueInOrder_subset hmem)
      simp at this

/-- C8: the line list is the distinct set of `linea` values sorted ascending,
and for a chosen line the candidate stations are exactly the stations of that
line (a permutation of the equality filter) sorted ascending by `estacion`. -/
theorem c8_selector_derivations :
    (∀ stations : List Station, (lines stations).Sorted (· ≤ ·))
    ∧ (∀ stations : List Station, (lines stations).Nodup)
    ∧ (∀ stations : List Station, ∀ x : String,
        x ∈ lines stations ↔ ∃ st ∈ stations, st.linea = x)
    ∧ (∀ stations : List Station, ∀ line : String, line ≠ "" →
        (stationsForLine stations line).Perm
            (stations.filter (fun s => s.linea == line))
          ∧ (stationsForLine stations line).Sorted estacionLe) := by
  refine ⟨?_, ?_, ?_, ?_⟩
  · intro stations
    rw [lines]
    by_cases h : stations.length = 0
    · simp [h]
    · rw [if_neg h]
      exact List.sorted_insertionSort _ _
  · intro stations
    rw [lines]
    by_cases h : stations.length = 0
    · simp [h]
    · rw [if_neg h]
      exact ((List.perm_insertionSort _ _).nodup_iff).mpr (uniqueInOrder_nodup _)
  · intro stations x
    rw [lines]
    by_cases h : stations.length = 0
    · rw [if_pos h, List.length_eq_zero.mp h]
      simp
    · rw [if_neg h, (List.perm_insertionSort _ _).mem_iff, mem_uniqueInOrder,
        List.mem_map]
  · intro stations line hline
    rw [stationsForLine, if_neg hline]
    exact ⟨List.perm_insertionSort _ _, List.sorted_insertionSort _ _⟩

/-- Witness for C8 at a concrete station list: line `"1"`'s stations come out
sorted by name. -/
theorem c8_witness :
    (stationsForLine
        [{ linea := "1", estacion := "Zaragoza" },
         { linea := "2", estacion := "Tasqueña" },
         { linea := "1", estacion := "Balderas" }] "1").Perm
        (([{ linea := "1", estacion := "Zaragoza" },
           { linea := "2", estacion := "Tasqueña" },
           { linea := "1", estacion := "Balderas" }] : List Station).filter
          (fun s => s.linea == "1"))
      ∧ (stationsForLine
          [{ linea := "1", estacion := "Zaragoza" },
           { linea := "2", estacion := "Tasqueña" },
           { linea := "1", estacion := "Balderas" }] "1").Sorted estacionLe :=
  c8_selector_derivations.2.2.2 _ "1" (by decide)
/-! ## TimeSeriesChart aggregates -/

/-- A historical time-series point; every optional field is a `JSVal`
(`undefined` for a missing property). -/
structure TimeSeriesPoint where
  fecha : JSVal
  afluencia : JSVal
  mean : JSVal
  min : JSVal
  max : JSVal
deriving DecidableEq, Repr

/-- `validData` from `TimeSeriesChart.jsx`: points with a truthy date and at
least one of the two primary value fields present. -/
def validData (data : List TimeSeriesPoint) : List TimeSeriesPoint :=
  data.filter fun item =>
    item.fecha.truthy && (item.afluencia != JSVal.undefined || item.mean != JSVal.undefined)

/-- JS `a || b`: the left operand when truthy, else the right one. -/
def jsOr (a b : JSVal) : JSVal :=
  if a.truthy then a else b

/-- JS numeric coercion for the aggregate arithmetic: a number is itself,
`null` coerces to `0`, `undefined` to NaN (`none`); a string operand — which
JS would concatenate, and which does not occur in the numeric fields this
component aggregates — is mapped to `none` as well. -/
def jsToNum : JSVal → Option Rat
  | .num x => some x
  | .null => some 0
  | _ => none

/-- The stats-block guard from `TimeSeriesChart.jsx`:
`data[0]?.min !== undefined && data[0]?.max !== undefined` — it inspects only
the first point of the raw input. -/
def showStats : List TimeSeriesPoint → Bool
  | [] => false
  | p :: _ => p.min != JSVal.undefined && p.max != JSVal.undefined

/-- The primary value `item.afluencia || item.mean`. -/
def primaryValue (item : TimeSeriesPoint) : JSVal :=
  jsOr item.afluencia item.mean

/-- The `Promedio Mensual` reduce: sum of the primary values over the valid
points divided by their count; `none` models NaN (a non-numeric operand, or
the `0/0` of an empty valid list). -/
def meanStat (data : List TimeSeriesPoint) : Option Rat :=
  match (validData data).foldl
      (fun acc item =>
        match acc, jsToNum (primaryValue item) with
        | some s, some x => some (s + x)
        | _, _ => none)
      (some 0) with
  | some s =>
      if (validData data).length = 0 then none
      else some (s / (validData data).length)
  | none => none

/-- The operand of the `Máximo Mensual` spread:
`item.max || item.afluencia || item.mean`. -/
def maxCandidate (item : TimeSeriesPoint) : JSVal :=
  jsOr item.max (jsOr item.afluencia item.mean)

/-- The operand of the `Mínimo Mensual` spread:
`item.min || item.afluencia || item.mean`. -/
def minCandidate (item : TimeSeriesPoint) : JSVal :=
  jsOr item.min (jsOr item.afluencia item.mean)

/-- All-or-nothing sequencing of a list of optional numbers (a NaN operand
poisons the JS `Math.max`/`Math.min` spread). -/
def allSome : List (Option Rat) → Option (List Rat)
  | [] => some []
  | none :: _ => none
  | some x :: rest =>
      match allSome rest with
      | some ys => some (x :: ys)
      | none => none

/-- `Math.max(...validData.map(item => item.max || item.afluencia ||
item.mean))`; `none` models NaN and the minus-infinity of an empty spread,
neither of which is a displayable magnitude. -/
def maxStat (data : List TimeSeriesPoint) : Option Rat :=
  match allSome ((validData data).map fun item => jsToNum (maxCandidate item)) with
  | some [] => none
  | some (y :: ys) => some (ys.foldl max y)
  | none => none

/-- `Math.min(...)` over the min candidates, dually. -/
def minStat (data : List TimeSeriesPoint) : Option Rat :=
  match allSome ((validData data).map fun item => jsToNum (minCandidate item)) with
  | some [] => none
  | some (y :: ys) => some (ys.foldl min y)
  | none => none

/-- `allSome` succeeds exactly on lists of defined values. -/
theorem allSome_eq {l : List (Option Rat)} {xs : List Rat}
    (h : allSome l = some xs) : l = xs.map some := by
  induction l generalizing xs with
  | nil =>
      rw [allSome] at h
      injection h with h'
      rw [← h']
      rfl
  | cons o rest ih =>
      cases o with
      | none => rw [allSome] at h; exact absurd h (by simp)
      | some x =>
          rw [allSome] at h
          cases hr : allSome rest with
          | none => rw [hr] at h; exact absurd h (by simp)
          | some ys =>
              rw [hr] at h
              injection h with h'
              rw [← h', List.map_cons, ← ih hr]

/-- The fold start is below the fold of `max`. -/
theorem foldl_max_le_self (y : Rat) (ys : List Rat) : y ≤ ys.foldl max y := by
  induction ys generalizing y with
  | nil => exact le_refl y
  | cons z zs ih =>
      rw [List.foldl_cons]
      exact le_trans (le_max_left y z) (ih (max y z))

/-- Every member of the fold's input is below the fold of `max`. -/
theorem mem_le_foldl_max {y z : Rat} {ys : List Rat} (h : z ∈ y :: ys) :
    z ≤ ys.foldl max y := by
  induction ys generalizing y with
  | nil =>
      rcases List.mem_cons.mp h with rfl | h'
      · exact le_refl z
      · exact absurd h' (List.not_mem_nil z)
  | cons w ws ih =>
      rw [List.foldl_cons]
      rcases List.mem_cons.mp h with rfl | h'
      · exact le_trans (le_max_left z w) (foldl_max_le_self _ _)
      · rcases List.mem_cons.mp h' with rfl | h''
        · exact le_trans (le_max_right y z) (foldl_max_le_self _ _)
        · exact ih (List.mem_cons_of_mem _ h'')

/-- The fold of `max` is attained by the start or a member. -/
theorem foldl_max_mem (y : Rat) (ys : List Rat) : ys.foldl max y ∈ y :: ys := by
  induction ys generalizing y with
  | nil => exact List.mem_cons_self _ _
  | cons z zs ih =>
      rw [List.foldl_cons]
      rcases List.mem_cons.mp (ih (max y z)) with h | h
      · rw [h]
        rcases max_choice y z with h' | h' <;> rw [h']
        · exact List.mem_cons_self _ _
        · exact List.mem_cons_of_mem _ (List.mem_cons_self _ _)
      · exact List.mem_cons_of_mem _ (List.mem_cons_of_mem _ h)

/-- The fold start is above the fold of `min`. -/
theorem foldl_min_ge_self (y : Rat) (ys : List Rat) : ys.foldl min y ≤ y := by
  induction ys generalizing y with
  | nil => exact le_refl y
  | cons z zs ih =>
      rw [List.foldl_cons]
      exact le_trans (ih (min y z)) (min_le_left y z)

/-- Every member of the fold's input is above the fold of `min`. -/
theorem foldl_min_le_mem {y z : Rat} {ys : List Rat} (h : z ∈ y :: ys) :
    ys.foldl min y ≤ z := by
  induction ys generalizing y with
  | nil =>
      rcases List.mem_cons.mp h with rfl | h'
      · exact le_refl z
      · exact absurd h' (List.not_mem_nil z)
  | cons w ws ih =>
      rw [List.foldl_cons]
      rcases List.mem_cons.mp h with rfl | h'
      · exact le_trans (foldl_min_ge_self _ _) (min_le_left z w)
      · rcases List.mem_cons.mp h' with rfl | h''
        · exact le_trans (foldl_min_ge_self _ _) (min_le_right y z)
        · exact ih (List.mem_cons_of_mem _ h'')

/-- The fold of `min` is attained by the start or a member. -/
theorem foldl_min_mem (y : Rat) (ys : List Rat) : ys.foldl min y ∈ y :: ys := by
  induction ys generalizing y with
  | nil => exact List.mem_cons_self _ _
  | cons z zs ih =>
      rw [List.foldl_cons]
      rcases List.mem_cons.mp (ih (min y z)) with h | h
      · rw [h]
        rcases min_choice y z with h' | h' <;> rw [h']
        · exact List.mem_cons_self _ _
        · exact List.mem_cons_of_mem _ (List.mem_cons_self _ _)
      · exact List.mem_cons_of_mem _ (List.mem_cons_of_mem _ h)
/-! ## C9: aggregate statistics -/

/-- C9 as stated is false: a series whose second point carries `min`/`max`
but whose first point does not satisfies the claim's premise ("at least one
point carries min/max"), yet the component's guard — which inspects only
`data[0]` — does not display the aggregates. -/
theorem c9_counterexample :
    (∃ p ∈ [({ fecha := .str "2021-01", afluencia := .num 10, mean := .undefined
               min := .undefined, max := .undefined } : TimeSeriesPoint),
            { fecha := .str "2021-02", afluencia := .num 20, mean := .undefined
              min := .num 5, max := .num 25 }],
        p.min ≠ JSVal.undefined ∧ p.max ≠ JSVal.undefined)
    ∧ showStats
        [{ fecha := .str "2021-01", afluencia := .num 10, mean := .undefined
           min := .undefined, max := .undefined },
         { fecha := .str "2021-02", afluencia := .num 20, mean := .undefined
           min := .num 5, max := .num 25 }] = false := by
  decide

/-- C9 amended: the aggregates are displayed exactly when the *first* point
of the raw input carries both `min` and `max`; when computed, the mean is
the arithmetic mean of the primary value over the valid points (20 for the
example), the maximum is the greatest per-point candidate
`max || afluencia || mean` (35 for the example, so the fallback fires
whenever `max` is falsy, not only when absent), attained at some valid
point and bounding every valid point's candidate; dually for the minimum. -/
theorem c9_aggregates :
    (∀ p : TimeSeriesPoint, ∀ rest rest' : List TimeSeriesPoint,
        showStats (p :: rest) = showStats (p :: rest'))
    ∧ (∀ p : TimeSeriesPoint, ∀ rest : List TimeSeriesPoint,
        showStats (p :: rest) = true ↔ (p.min ≠ JSVal.undefined ∧ p.max ≠ JSVal.undefined))
    ∧ meanStat
        [{ fecha := .str "2021-01", afluencia := .num 10, mean := .undefined
           min := .undefined, max := .undefined },
         { fecha := .str "2021-02", afluencia := .num 20, mean := .undefined
           min := .undefined, max := .undefined },
         { fecha := .str "2021-03", afluencia := .num 30, mean := .undefined
           min := .undefined, max := .undefined }] = some 20
    ∧ maxStat
        [{ fecha := .str "2021-01", afluencia := .num 10, mean := .undefined
           min := .undefined, max := .num 12 },
         { fecha := .str "2021-02", afluencia := .num 20, mean := .undefined
           min := .undefined, max := .num 22 },
         { fecha := .str "2021-03", afluencia := .num 30, mean := .undefined
           min := .undefined, max := .num 35 }] = some 35
    ∧ (∀ data : List TimeSeriesPoint, ∀ m : Rat, maxStat data = some m →
        (∀ p ∈ validData data, ∀ x : Rat,
            jsToNum (maxCandidate p) = some x → x ≤ m)
        ∧ (∃ p ∈ validData data, jsToNum (maxCandidate p) = some m))
    ∧ (∀ data : List TimeSeriesPoint, ∀ m : Rat, minStat data = some m →
        (∀ p ∈ validData data, ∀ x : Rat,
            jsToNum (minCandidate p) = some x → m ≤ x)
        ∧ (∃ p ∈ validData data, jsToNum (minCandidate p) = some m)) := by
  refine ⟨fun p rest rest' => rfl, fun p rest => by simp [showStats], ?_, ?_, ?_, ?_⟩
  · simp [meanStat, validData, primaryValue, jsOr, jsToNum, JSVal.truthy]
    norm_num
  · simp [maxStat, validData, maxCandidate, jsOr, jsToNum, JSVal.truthy, allSome]
    norm_num [max_def]
  · intro data m h
    rw [maxStat] at h
    rcases hall : allSome ((validData data).map fun item => jsToNum (maxCandidate item))
      with _ | xs
    · rw [hall] at h
      exact absurd h (by simp)
    · rw [hall] at h
      cases xs with
      | nil => exact absurd h (by simp)
      | cons y ys =>
          injection h with h'
          have hmap := allSome_eq hall
          constructor
          · intro p hp x hx
            have hx' : some x ∈ (y :: ys).map some := by
              rw [← hmap]
              exact hx ▸ List.mem_map_of_mem _ hp
            have : x ∈ y :: ys := by
              rcases List.mem_map.mp hx' with ⟨z, hz, hzz⟩
              injection hzz with hzz'
              rw [← hzz']
              exact hz
            rw [← h']
            exact mem_le_foldl_max this
          · have hmem : some (ys.foldl max y) ∈
                (validData data).map fun item => jsToNum (maxCandidate item) := by
              rw [hmap]
              exact List.mem_map_of_mem _ (foldl_max_mem y ys)
            rcases List.mem_map.mp hmem with ⟨p, hp, hpp⟩
            exact ⟨p, hp, by rw [hpp, h']⟩
  · intro data m h
    rw [minStat] at h
    rcases hall : allSome ((validData data).map fun item => jsToNum (minCandidate item))
      with _ | xs
    · rw [hall] at h
      exact absurd h (by simp)
    · rw [hall] at h
      cases xs with
      | nil => exact absurd h (by simp)
      | cons y ys =>
          injection h with h'
          have hmap := allSome_eq hall
          constructor
          · intro p hp x hx
            have hx' : some x ∈ (y :: ys).map some := by
              rw [← hmap]
              exact hx ▸ List.mem_map_of_mem _ hp
            have : x ∈ y :: ys := by
              rcases List.mem_map.mp hx' with ⟨z, hz, hzz⟩
              injection hzz with hzz'
              rw [← hzz']
              exact hz
            rw [← h']
            exact foldl_min_le_mem this
          · have hmem : some (ys.foldl min y) ∈
                (validData data).map fun item => jsToNum (minCandidate item) := by
              rw [hmap]
              exact List.mem_map_of_mem _ (foldl_min_mem y ys)
            rcases List.mem_map.mp hmem with ⟨p, hp, hpp⟩
            exact ⟨p, hp, by rw [hpp, h']⟩
/-- Witness for C9: the maximum characterization applied at the concrete
example series, whose computed maximum is 35. -/
theorem c9_witness :
    (∀ p ∈ validData
        [{ fecha := .str "2021-01", afluencia := .num 10, mean := .undefined
           min := .undefined, max := .num 12 },
         { fecha := .str "2021-02", afluencia := .num 20, mean := .undefined
           min := .undefined, max := .num 22 },
         { fecha := .str "2021-03", afluencia := .num 30, mean := .undefined
           min := .undefined, max := .num 35 }],
        ∀ x : Rat, jsToNum (maxCandidate p) = some x → x ≤ 35)
    ∧ (∃ p ∈ validData
        [{ fecha := .str "2021-01", afluencia := .num 10, mean := .undefined
           min := .undefined, max := .num 12 },
         { fecha := .str "2021-02", afluencia := .num 20, mean := .undefined
           min := .undefined, max := .num 22 },
         { fecha := .str "2021-03", afluencia := .num 30, mean := .undefined
           min := .undefined, max := .num 35 }],
        jsToNum (maxCandidate p) = some 35) :=
  c9_aggregates.2.2.2.2.1 _ 35 c9_aggregates.2.2.2.1
